import Mathlib

/-!
Formal model of the product-catalog backend in `src/main.py`.

Documents are modelled as ordered association lists with string keys, the
shape of a Python dict (unique keys, insertion order preserved).  Internal
identifiers (bson ObjectIds) are modelled as natural numbers together with
their canonical 24-character lowercase hex rendering.  The storage access
layer (`database.py`, not part of the sources) is modelled from the spec,
section 4.1.  Each endpoint of `main.py` becomes a pure function, with the
storage handle passed explicitly and `HTTPException` as an `Except` error
carrying the status code.
-/

/-- A stored or wire value: string, number, boolean, or internal identifier.
Numbers carry a rational; no arithmetic is ever performed on them, they are
only stored and compared. -/
inductive Value where
  | str (s : String)
  | num (q : Rat)
  | bool (b : Bool)
  | oid (n : Nat)
  deriving DecidableEq, Repr

/-- A Python dict with string keys, as an ordered association list.  Python
dict keys are unique; insertion order is preserved. -/
abbrev Dict := List (String × Value)

/-- Dictionary lookup, Python `d[k]` membership test and read: the value at
the key, if present (first entry with that key). -/
def dictGet : Dict → String → Option Value
  | [], _ => none
  | kv :: rest, k => if kv.1 = k then some kv.2 else dictGet rest k

/-- Dictionary write, Python `d[k] = v`: overwrite the entry in place when
the key is present (keeping its position), append it at the end otherwise. -/
def dictSet : Dict → String → Value → Dict
  | [], k, v => [(k, v)]
  | kv :: rest, k, v => if kv.1 = k then (k, v) :: rest else kv :: dictSet rest k v

/-- Dictionary removal, Python `d.pop(k)`: drop the entry with the key.
Keys of a Python dict are unique, so dropping every entry with the key
coincides with dropping the one entry. -/
def dictErase : Dict → String → Dict
  | [], _ => []
  | kv :: rest, k => if kv.1 = k then dictErase rest k else kv :: dictErase rest k

/-- Lowercase hex digit character, as produced by the canonical ObjectId
rendering: 0-9 then a-f. -/
def hexDigitChar (n : Nat) : Char :=
  if n < 10 then Char.ofNat (48 + n) else Char.ofNat (87 + n)

/-- Numeric value of a hex digit character, accepting both cases; 0 on any
other character. -/
def hexDigitVal (c : Char) : Nat :=
  if 48 ≤ c.toNat ∧ c.toNat ≤ 57 then c.toNat - 48
  else if 97 ≤ c.toNat ∧ c.toNat ≤ 102 then c.toNat - 87
  else if 65 ≤ c.toNat ∧ c.toNat ≤ 70 then c.toNat - 55
  else 0

/-- Is the character a hex digit (either case)?  This is the well-formedness
test a bson ObjectId imposes on each character of a 24-character string. -/
def isHexDigit (c : Char) : Bool :=
  decide ((48 ≤ c.toNat ∧ c.toNat ≤ 57) ∨ (97 ≤ c.toNat ∧ c.toNat ≤ 102) ∨
    (65 ≤ c.toNat ∧ c.toNat ≤ 70))

/-- Fixed-width big-endian hex rendering: `toHexDigits k v` is the last `k`
hex digits of `v`, most significant first. -/
def toHexDigits : Nat → Nat → List Char
  | 0, _ => []
  | k + 1, v => toHexDigits k (v / 16) ++ [hexDigitChar (v % 16)]

/-- Canonical string rendering of an internal identifier, Python
`str(ObjectId)`: 24 lowercase hex characters. -/
def oidString (n : Nat) : String := String.mk (toHexDigits 24 n)

/-- Value of a big-endian list of hex digit characters. -/
def parseHexDigits (cs : List Char) : Nat :=
  cs.foldl (fun a c => 16 * a + hexDigitVal c) 0

/-- bson `ObjectId(s)` applied to a client-supplied string, as used on line
208 of `main.py`: the constructor succeeds exactly on a 24-character hex
string (case-insensitive) and raises otherwise, which `get_product` turns
into a 400.  `none` models the raise. -/
def parseObjectId (s : String) : Option Nat :=
  if s.data.length = 24 ∧ s.data.all isHexDigit then some (parseHexDigits s.data) else none

/-- Python `str` applied to a stored value.  The identifier field of a
stored document always holds an ObjectId, rendered as its 24-character
lowercase hex form; the remaining constructors model `str` on the other
stored field types and are never applied to identifier fields in this
development. -/
def valueStr : Value → String
  | .str s => s
  | .num q => toString q
  | .bool b => cond b "True" "False"
  | .oid n => oidString n

/-- Lines 21-27 of `main.py`:

    def serialize_product(doc: dict) -> dict:
        if not doc:
            return {}
        d = doc.copy()
        if "_id" in d:
            d["id"] = str(d.pop("_id"))
        return d

The argument is `Option Dict` because callers pass the possibly-`None`
result of `find_one`; both `None` and the empty dict are falsy. -/
def serialize_product (doc : Option Dict) : Dict :=
  match doc with
  | none => []
  | some d =>
    if d = [] then []
    else
      match dictGet d "_id" with
      | some v => dictSet (dictErase d "_id") "id" (Value.str (valueStr v))
      | none => d

/-- Lines 30-127 of `main.py`: the fixed 12-item sample catalog inserted by
the seed operation.  Field order and contents as in the source; prices are
the integral floats of the source. -/
def MOCK_PRODUCTS : List Dict :=
  [ [("title", Value.str "Minimalist Ceramic Mug"),
     ("description", Value.str "Matte white ceramic mug with ergonomic handle."),
     ("price", Value.num 18),
     ("category", Value.str "Home"),
     ("in_stock", Value.bool true),
     ("image", Value.str "https://images.unsplash.com/photo-1512496015851-a90fb38ba796?q=80&w=1200&auto=format&fit=crop")],
    [("title", Value.str "Wireless Over-Ear Headphones"),
     ("description", Value.str "Clean design, active noise cancellation, 30h battery."),
     ("price", Value.num 199),
     ("category", Value.str "Tech"),
     ("in_stock", Value.bool true),
     ("image", Value.str "https://images.unsplash.com/photo-1518443895914-6d27f6a58a15?q=80&w=1200&auto=format&fit=crop")],
    [("title", Value.str "Soft Cotton T-Shirt"),
     ("description", Value.str "Premium 220gsm cotton, relaxed fit, off-white."),
     ("price", Value.num 28),
     ("category", Value.str "Apparel"),
     ("in_stock", Value.bool true),
     ("image", Value.str "https://images.unsplash.com/photo-1520975682031-a700cf9f3160?q=80&w=1200&auto=format&fit=crop")],
    [("title", Value.str "Hardcover Dot Grid Notebook"),
     ("description", Value.str "A5 size, 160 pages, lays flat, recycled paper."),
     ("price", Value.num 22),
     ("category", Value.str "Office"),
     ("in_stock", Value.bool true),
     ("image", Value.str "https://images.unsplash.com/photo-1531346680769-9d39828e36a5?q=80&w=1200&auto=format&fit=crop")],
    [("title", Value.str "Minimal Desk Lamp"),
     ("description", Value.str "Adjustable warm LEDs with touch dimming."),
     ("price", Value.num 79),
     ("category", Value.str "Home"),
     ("in_stock", Value.bool true),
     ("image", Value.str "https://images.unsplash.com/photo-1493663284031-b7e3aefcae8e?q=80&w=1200&auto=format&fit=crop")],
    [("title", Value.str "Leather Wallet"),
     ("description", Value.str "Hand-stitched full-grain leather wallet with RFID blocking."),
     ("price", Value.num 49),
     ("category", Value.str "Accessories"),
     ("in_stock", Value.bool true),
     ("image", Value.str "https://images.unsplash.com/photo-1545289414-1c3cb1c06238?q=80&w=1200&auto=format&fit=crop")],
    [("title", Value.str "Insulated Water Bottle"),
     ("description", Value.str "Keeps drinks cold for 24h, hot for 12h, powder-coated finish."),
     ("price", Value.num 32),
     ("category", Value.str "Outdoors"),
     ("in_stock", Value.bool true),
     ("image", Value.str "https://images.unsplash.com/photo-1595433707802-6b2626ef1c86?q=80&w=1200&auto=format&fit=crop")],
    [("title", Value.str "Portable Bluetooth Speaker"),
     ("description", Value.str "Room-filling sound in a compact, splash-proof design."),
     ("price", Value.num 89),
     ("category", Value.str "Tech"),
     ("in_stock", Value.bool true),
     ("image", Value.str "https://images.unsplash.com/photo-1519671482749-fd09be7ccebf?q=80&w=1200&auto=format&fit=crop")],
    [("title", Value.str "Aromatherapy Candle"),
     ("description", Value.str "Soy wax candle with sandalwood and citrus notes."),
     ("price", Value.num 24),
     ("category", Value.str "Home"),
     ("in_stock", Value.bool true),
     ("image", Value.str "https://images.unsplash.com/photo-1519681393784-d120267933ba?q=80&w=1200&auto=format&fit=crop")],
    [("title", Value.str "Canvas Tote Bag"),
     ("description", Value.str "Heavy-duty 16oz canvas with inner pocket and zipper."),
     ("price", Value.num 35),
     ("category", Value.str "Accessories"),
     ("in_stock", Value.bool true),
     ("image", Value.str "https://images.unsplash.com/photo-1618354691458-3f58f5c65b15?q=80&w=1200&auto=format&fit=crop")],
    [("title", Value.str "Succulent Planter Set"),
     ("description", Value.str "Set of 3 ceramic planters with drainage trays."),
     ("price", Value.num 27),
     ("category", Value.str "Home"),
     ("in_stock", Value.bool true),
     ("image", Value.str "https://images.unsplash.com/photo-1501004318641-b39e6451bec6?q=80&w=1200&auto=format&fit=crop")],
    [("title", Value.str "Stainless Chef Knife"),
     ("description", Value.str "8-inch chef knife with balanced weight and ergonomic grip."),
     ("price", Value.num 59),
     ("category", Value.str "Kitchen"),
     ("in_stock", Value.bool true),
     ("image", Value.str "https://images.unsplash.com/photo-1594387102886-0b0a9f62d7db?q=80&w=1200&auto=format&fit=crop")] ]

/-- Modelled from the spec: the document store behind `database.py`, which
is not among the sources.  The code addresses the single collection named
"product" (`db["product"]`), so the store is specialized to that one
collection: its documents in insertion order (the store's natural retrieval
order), plus the generator state for the internally generated unique
identifiers that the storage layer assigns at insert time (spec, sections
3 and 4.1). -/
structure Store where
  product : List Dict
  nextId : Nat
  deriving Repr

/-- Does a document satisfy an equality filter, every filter entry holding
with its exact value?  This is the query semantics the spec assigns to the
storage layer's `query` and to `find_one` (exact match). -/
def matchesFilter (filt : Dict) (d : Dict) : Bool :=
  filt.all (fun kv => decide (dictGet d kv.1 = some kv.2))

/-- pymongo `collection.find_one(filter)`: the first document of the
collection, in natural retrieval order, matching the filter; `none` when no
document matches. -/
def find_one (docs : List Dict) (filt : Dict) : Option Dict :=
  docs.find? (matchesFilter filt)

/-- Modelled from the spec: `get_documents(collection, filter, limit)` of
`database.py`, which is not among the sources.  Spec, section 4.1: a finite
sequence of the matching documents, in the store's natural retrieval order,
capped at `limit` results. -/
def get_documents (docs : List Dict) (filt : Dict) (limit : Nat) : List Dict :=
  (docs.filter (matchesFilter filt)).take limit

/-- Modelled from the spec: `create_document(collection, doc)` of
`database.py`, which is not among the sources.  Spec, section 4.1: persists
the one document and returns the newly assigned internal identifier; the
stored document carries that identifier under the internal identifier field. -/
def create_document (doc : Dict) (s : Store) : Nat × Store :=
  (s.nextId,
   { product := s.product ++ [dictSet doc "_id" (Value.oid s.nextId)],
     nextId := s.nextId + 1 })

/-- The default of the `limit` query parameter of `list_products`, line 193
of `main.py`. -/
def list_products_default_limit : Nat := 24

/-- Lines 196-198 of `main.py`: the query filter of the list operation.
It starts from `{"in_stock": True}` and, when `category` is truthy -
Python `if category:`, so supplied AND non-empty - gains `category` as an
exact value (`filt["category"] = category`). -/
def list_filter (category : Option String) : Dict :=
  match category with
  | none => [("in_stock", Value.bool true)]
  | some c =>
    if c = "" then [("in_stock", Value.bool true)]
    else dictSet [("in_stock", Value.bool true)] "category" (Value.str c)

/-- Lines 192-200 of `main.py`.  `HTTPException(500)` when the storage
handle is unavailable; otherwise the matching documents, capped at `limit`,
each serialized. -/
def list_products (db : Option Store) (category : Option String) (limit : Nat) :
    Except Nat (List Dict) :=
  match db with
  | none => Except.error 500
  | some s =>
    Except.ok ((get_documents s.product (list_filter category) limit).map
      (fun d => serialize_product (some d)))

/-- Python falsiness of a `find_one` result: `None` or the empty dict. -/
def optFalsy (o : Option Dict) : Bool :=
  match o with
  | none => true
  | some d => d.isEmpty

/-- Lines 203-215 of `main.py`: 500 when the storage handle is unavailable,
400 when `ObjectId(product_id)` raises, 404 when `find_one` returns a falsy
document, otherwise the one serialized product. -/
def get_product (db : Option Store) (product_id : String) : Except Nat Dict :=
  match db with
  | none => Except.error 500
  | some s =>
    match parseObjectId product_id with
    | none => Except.error 400
    | some oid =>
      let doc := find_one s.product [("_id", Value.oid oid)]
      if optFalsy doc then Except.error 404
      else Except.ok (serialize_product doc)

/-- Lines 218-224 of `main.py`: 500 when the storage handle is unavailable;
otherwise insert the validated payload, re-read the inserted document by the
newly assigned identifier, and answer with its serialization.  The payload
is the already-validated product dict (the `Product` schema lives in
`schemas.py`, not among the sources; per the spec it carries every field of
section 3 except the identifier).  The updated store is returned alongside
the response. -/
def create_product (db : Option Store) (product : Dict) : Except Nat (Dict × Store) :=
  match db with
  | none => Except.error 500
  | some s =>
    let res := create_document product s
    let doc := find_one res.2.product [("_id", Value.oid res.1)]
    Except.ok (serialize_product doc, res.2)

/-- The body of the seed loop, lines 236-238 of `main.py`: insert the sample
products one by one, collecting the newly assigned identifiers in order. -/
def insertAll (ps : List Dict) (s : Store) : List Nat × Store :=
  match ps with
  | [] => ([], s)
  | p :: rest =>
    let r1 := create_document p s
    let r2 := insertAll rest r1.2
    (r1.1 :: r2.1, r2.2)

/-- The seed response, line 234 resp. line 241 of `main.py`:
`{"seeded": False, "message": ...}` or
`{"seeded": True, "count": ..., "products": ...}`. -/
inductive SeedResponse where
  | already (message : String)
  | seeded (count : Nat) (products : List Dict)
  deriving DecidableEq, Repr

/-- Lines 227-241 of `main.py`: 500 when the storage handle is unavailable;
no-op answer when the collection already holds documents
(`count_documents({}) > 0`); otherwise insert the sample catalog, re-read
each inserted document by its identifier, and answer with the serialized
set.  The updated store is returned alongside the response. -/
def seed_products (db : Option Store) : Except Nat (SeedResponse × Store) :=
  match db with
  | none => Except.error 500
  | some s =>
    if s.product.length > 0 then
      Except.ok (SeedResponse.already "Products already exist", s)
    else
      let r := insertAll MOCK_PRODUCTS s
      let products := r.1.map (fun i => serialize_product (find_one r.2.product [("_id", Value.oid i)]))
      Except.ok (SeedResponse.seeded products.length products, r.2)

/-- The sample catalog as it sits in the store after a seed from counter
`n`: each document extended with its newly assigned internal identifier, in
insertion order. -/
def attachIds : List Dict → Nat → List Dict
  | [], _ => []
  | p :: rest, n => dictSet p "_id" (Value.oid n) :: attachIds rest (n + 1)

/-- Modelled from the spec: the live storage handle as the diagnostics
endpoint sees it.  `database.py` is not among the sources; per the spec the
handle exposes a database name (`db.name`, when the attribute is there) and
collection-name listing, and the listing may raise a storage fault, carried
here as `Except.error` with the fault text (Python `str(e)`). -/
structure DiagStore where
  name : Option String
  listCollections : Except String (List String)

/-- The response dict of `/test`, lines 156-163 of `main.py`, one field per
key.  `database_url` and `database_name` start as `None` (hence `Option`). -/
structure TestResponse where
  backend : String
  database : String
  database_url : Option String
  database_name : Option String
  connection_status : String
  collections : List String
  deriving Repr

/-- Lines 154-188 of `main.py`: build the diagnostics report.  The storage
fault raised by `list_collection_names()` is caught in the inner
`try`/`except` and downgraded to the descriptive string
`"⚠️  Connected but Error: " + str(e)[:50]`; the final two assignments
overwrite `database_url` and `database_name` from the environment flags
(`DATABASE_URL` / `DATABASE_NAME` being set). -/
def test_database (db : Option DiagStore) (urlSet : Bool) (nameSet : Bool) : TestResponse :=
  let r0 : TestResponse :=
    { backend := "✅ Running", database := "❌ Not Available", database_url := none,
      database_name := none, connection_status := "Not Connected", collections := [] }
  let r1 :=
    match db with
    | some d =>
      let r :=
        { r0 with database := "✅ Available", database_url := some "✅ Configured",
                  database_name := some (d.name.getD "✅ Connected"),
                  connection_status := "Connected" }
      match d.listCollections with
      | Except.ok cs =>
        { r with collections := cs.take 10, database := "✅ Connected & Working" }
      | Except.error e =>
        { r with database := "⚠️  Connected but Error: " ++ e.take 50 }
    | none => { r0 with database := "⚠️  Available but not initialized" }
  { r1 with database_url := some (if urlSet then "✅ Set" else "❌ Not Set"),
            database_name := some (if nameSet then "✅ Set" else "❌ Not Set") }

/-- A heap of Python dict objects: the value of each allocated dict, indexed
by its address.  Used to state that `serialize_product` leaves the dict
passed to it untouched. -/
abbrev Heap := List Dict

/-- The dict object at an address (the empty dict when the address is not
allocated; the claims constrain addresses to allocated ones). -/
def heapGet (h : Heap) (a : Nat) : Dict := h.getD a []

/-- Overwrite the dict object at an address. -/
def heapSet (h : Heap) (a : Nat) (d : Dict) : Heap := h.set a d

/-- Allocate a fresh dict object, returning the grown heap and the fresh
address. -/
def heapAlloc (h : Heap) (d : Dict) : Heap × Nat := (h ++ [d], h.length)

/-- Lines 21-27 of `main.py` once more, this time at the level of dict
objects on a heap, so that the mutation behaviour is visible: `return {}`
allocates a fresh empty dict, `d = doc.copy()` allocates a fresh dict with
the argument's contents, and `d.pop` / `d["id"] = ...` write to the copy's
address only.  Returns the heap after the call and the address of the
returned dict. -/
def serialize_product_ref (h : Heap) (doc : Nat) : Heap × Nat :=
  if (heapGet h doc).isEmpty then heapAlloc h []
  else
    let al := heapAlloc h (heapGet h doc)
    let h1 := al.1
    let d := al.2
    match dictGet (heapGet h1 d) "_id" with
    | some v =>
      (heapSet h1 d (dictSet (dictErase (heapGet h1 d) "_id") "id" (Value.str (valueStr v))), d)
    | none => (h1, d)

/-- A stored document used as concrete test input: an identifier plus
catalog fields. -/
def sampleDoc : Dict :=
  [("_id", Value.oid 7), ("title", Value.str "Mug"),
   ("category", Value.str "Home"), ("in_stock", Value.bool true)]

/-- The serialization of `sampleDoc`: identifier field replaced by its
string rendering, appended at the end. -/
def sampleDocSerialized : Dict :=
  [("title", Value.str "Mug"), ("category", Value.str "Home"),
   ("in_stock", Value.bool true), ("id", Value.str (oidString 7))]

/-- A one-document store holding `sampleDoc`. -/
def sampleStore : Store := { product := [sampleDoc], nextId := 8 }

/-- An in-stock document of category "Home", without identifier noise, for
the category-filter counterexample. -/
def cexDoc : Dict :=
  [("title", Value.str "Mug"), ("category", Value.str "Home"), ("in_stock", Value.bool true)]

/-- A one-document store holding `cexDoc`. -/
def cexStore : Store := { product := [cexDoc], nextId := 0 }

/-- The create scenario payload of the spec, section 8: all section-3 fields
except the identifier. -/
def samplePayload : Dict :=
  [("title", Value.str "X"), ("description", Value.str "d"), ("price", Value.num 10),
   ("category", Value.str "Home"), ("in_stock", Value.bool true), ("image", Value.str "u")]

theorem dictGet_dictSet_self (d : Dict) (k : String) (v : Value) :
    dictGet (dictSet d k v) k = some v := by
  induction d with
  | nil => simp [dictSet, dictGet]
  | cons kv rest ih =>
    by_cases h : kv.1 = k
    · simp [dictSet, h, dictGet]
    · simp [dictSet, h, dictGet, ih]

theorem dictGet_dictSet_ne (d : Dict) (k k2 : String) (v : Value) (h : k2 ≠ k) :
    dictGet (dictSet d k v) k2 = dictGet d k2 := by
  induction d with
  | nil => simp [dictSet, dictGet, Ne.symm h]
  | cons kv rest ih =>
    by_cases hk : kv.1 = k
    · have : kv.1 ≠ k2 := by rw [hk]; exact Ne.symm h
      simp [dictSet, hk, dictGet, Ne.symm h, this]
    · simp [dictSet, hk, dictGet, ih]

theorem dictGet_dictErase_self (d : Dict) (k : String) :
    dictGet (dictErase d k) k = none := by
  induction d with
  | nil => simp [dictErase, dictGet]
  | cons kv rest ih =>
    by_cases h : kv.1 = k
    · simp [dictErase, h, ih]
    · simp [dictErase, h, dictGet, ih]

theorem dictGet_dictErase_ne (d : Dict) (k k2 : String) (h : k2 ≠ k) :
    dictGet (dictErase d k) k2 = dictGet d k2 := by
  induction d with
  | nil => simp [dictErase]
  | cons kv rest ih =>
    by_cases hk : kv.1 = k
    · have : kv.1 ≠ k2 := by rw [hk]; exact Ne.symm h
      simp [dictErase, hk, dictGet, this, Ne.symm h, ih]
    · simp [dictErase, hk, dictGet, ih]

theorem dictSet_ne_nil (d : Dict) (k : String) (v : Value) : dictSet d k v ≠ [] := by
  cases d with
  | nil => simp [dictSet]
  | cons kv rest => simp only [dictSet]; split <;> simp

theorem serialize_some_of_id (d : Dict) (v : Value) (h : dictGet d "_id" = some v) :
    serialize_product (some d) = dictSet (dictErase d "_id") "id" (Value.str (valueStr v)) := by
  have hne : d ≠ [] := by
    intro he
    rw [he] at h
    simp [dictGet] at h
  simp [serialize_product, hne, h]

theorem serialize_some_no_id (d : Dict) (hne : d ≠ []) (h : dictGet d "_id" = none) :
    serialize_product (some d) = d := by
  simp [serialize_product, hne, h]

theorem serialize_get_other (d : Dict) (k : String) (h1 : k ≠ "_id") (h2 : k ≠ "id") :
    dictGet (serialize_product (some d)) k = dictGet d k := by
  by_cases hne : d = []
  · subst hne
    simp [serialize_product]
  · cases hid : dictGet d "_id" with
    | none => rw [serialize_some_no_id d hne hid]
    | some v =>
      rw [serialize_some_of_id d v hid, dictGet_dictSet_ne _ _ _ _ h2,
        dictGet_dictErase_ne _ _ _ h1]

theorem serialize_get_id_none (doc : Option Dict) :
    dictGet (serialize_product doc) "_id" = none := by
  cases doc with
  | none => simp [serialize_product, dictGet]
  | some d =>
    by_cases hne : d = []
    · subst hne
      simp [serialize_product, dictGet]
    · cases hid : dictGet d "_id" with
      | none => rw [serialize_some_no_id d hne hid]; exact hid
      | some v =>
        rw [serialize_some_of_id d v hid, dictGet_dictSet_ne _ _ _ _ (by decide),
          dictGet_dictErase_self]

/-- C1: for every stored document (one carrying the internal identifier
field), `serialize_product` removes "_id", adds "id" holding the canonical
string rendering of the same value, and leaves every other field unchanged;
and on an empty or absent document it produces the empty payload rather
than an error. -/
theorem serialize_product_contract (doc : Dict) (v : Value)
    (h : dictGet doc "_id" = some v) :
    dictGet (serialize_product (some doc)) "_id" = none ∧
    dictGet (serialize_product (some doc)) "id" = some (Value.str (valueStr v)) ∧
    (∀ k, k ≠ "_id" → k ≠ "id" →
      dictGet (serialize_product (some doc)) k = dictGet doc k) ∧
    serialize_product (some []) = [] ∧ serialize_product none = [] := by
  refine ⟨serialize_get_id_none _, ?_, fun k h1 h2 => serialize_get_other doc k h1 h2, rfl, rfl⟩
  rw [serialize_some_of_id doc v h, dictGet_dictSet_self]

/-- Witness for C1 at the concrete document `sampleDoc`. -/
theorem serialize_product_contract_witness :
    dictGet (serialize_product (some sampleDoc)) "_id" = none ∧
    dictGet (serialize_product (some sampleDoc)) "id" =
      some (Value.str (valueStr (Value.oid 7))) ∧
    dictGet (serialize_product (some sampleDoc)) "title" = dictGet sampleDoc "title" :=
  ⟨(serialize_product_contract sampleDoc (Value.oid 7) (by decide)).1,
   (serialize_product_contract sampleDoc (Value.oid 7) (by decide)).2.1,
   (serialize_product_contract sampleDoc (Value.oid 7) (by decide)).2.2.1 "title"
     (by decide) (by decide)⟩

/-- C2: serialization is idempotent - applying `serialize_product` twice
yields the same output as applying it once - and the output never contains
the internal identifier field "_id". -/
theorem serialize_product_idempotent (doc : Option Dict) :
    serialize_product (some (serialize_product doc)) = serialize_product doc ∧
    dictGet (serialize_product doc) "_id" = none := by
  refine ⟨?_, serialize_get_id_none doc⟩
  by_cases hne : serialize_product doc = []
  · rw [hne]
    simp [serialize_product]
  · exact serialize_some_no_id _ hne (serialize_get_id_none doc)

/-- C10: when the input document carries "_id", the "id" field of the
output is the string rendering of "_id" even when the input already had an
"id" field - the pre-existing value is overwritten, so external identity is
always derived from internal storage identity. -/
theorem serialize_product_overwrites_id (doc : Dict) (v w : Value)
    (h1 : dictGet doc "_id" = some v) (_h2 : dictGet doc "id" = some w) :
    dictGet (serialize_product (some doc)) "id" = some (Value.str (valueStr v)) := by
  rw [serialize_some_of_id doc v h1, dictGet_dictSet_self]

/-- Witness for C10 at a concrete document with a stale "id" field. -/
theorem serialize_product_overwrites_id_witness :
    dictGet (serialize_product (some [("_id", Value.oid 3), ("id", Value.str "stale")]))
      "id" = some (Value.str (valueStr (Value.oid 3))) :=
  serialize_product_overwrites_id [("_id", Value.oid 3), ("id", Value.str "stale")]
    (Value.oid 3) (Value.str "stale") (by decide) (by decide)

theorem heapGet_append_lt (h : Heap) (x : Dict) (a : Nat) (ha : a < h.length) :
    heapGet (h ++ [x]) a = heapGet h a := by
  induction h generalizing a with
  | nil => exact absurd ha (by simp)
  | cons d rest ih =>
    cases a with
    | zero => rfl
    | succ a =>
      simp only [heapGet, List.cons_append, List.getD] at *
      exact ih a (by simpa using ha)

theorem heapGet_append_self (h : Heap) (x : Dict) :
    heapGet (h ++ [x]) h.length = x := by
  induction h with
  | nil => rfl
  | cons d rest ih => simp only [heapGet, List.cons_append, List.length_cons, List.getD] at *; exact ih

theorem heapGet_set_self (h : Heap) (a : Nat) (x : Dict) (ha : a < h.length) :
    heapGet (heapSet h a x) a = x := by
  induction h generalizing a with
  | nil => exact absurd ha (by simp)
  | cons d rest ih =>
    cases a with
    | zero => rfl
    | succ a =>
      simp only [heapSet, heapGet, List.set, List.getD] at *
      exact ih a (by simpa using ha)

theorem heapGet_set_ne (h : Heap) (a b : Nat) (x : Dict) (hab : a ≠ b) :
    heapGet (heapSet h b x) a = heapGet h a := by
  induction h generalizing a b with
  | nil => rfl
  | cons d rest ih =>
    cases b with
    | zero =>
      cases a with
      | zero => exact absurd rfl hab
      | succ a => rfl
    | succ b =>
      cases a with
      | zero => rfl
      | succ a =>
        simp only [heapSet, heapGet, List.set, List.getD] at *
        exact ih a b (fun he => hab (by rw [he]))

/-- C9: `serialize_product` never mutates its input.  At the level of dict
objects on the heap, the dict at the argument's address is unchanged after
the call (in particular its "_id" field is still present), because the
function pops and writes on a copy; at the same time the returned object
holds exactly the pure serialization of the input. -/
theorem serialize_product_no_mutation (h : Heap) (a : Nat) (ha : a < h.length) :
    heapGet (serialize_product_ref h a).1 a = heapGet h a ∧
    heapGet (serialize_product_ref h a).1 (serialize_product_ref h a).2 =
      serialize_product (some (heapGet h a)) := by
  have hne : a ≠ h.length := Nat.ne_of_lt ha
  by_cases he : (heapGet h a).isEmpty
  · have he2 : heapGet h a = [] := by simpa using he
    constructor
    · simp only [serialize_product_ref, he, if_true, heapAlloc]
      exact heapGet_append_lt h [] a ha
    · simp only [serialize_product_ref, he, if_true, heapAlloc, he2, serialize_product]
      exact heapGet_append_self h []
  · have hcopy : heapGet (h ++ [heapGet h a]) h.length = heapGet h a :=
      heapGet_append_self h (heapGet h a)
    have hne2 : heapGet h a ≠ [] := by simpa using he
    cases hid : dictGet (heapGet h a) "_id" with
    | some v =>
      constructor
      · simp only [serialize_product_ref, he, Bool.false_eq_true, if_false, heapAlloc,
          hcopy, hid]
        rw [heapGet_set_ne _ _ _ _ hne]
        exact heapGet_append_lt h _ a ha
      · simp only [serialize_product_ref, he, Bool.false_eq_true, if_false, heapAlloc,
          hcopy, hid]
        rw [heapGet_set_self _ _ _ (by simp), serialize_some_of_id _ v hid]
    | none =>
      constructor
      · simp only [serialize_product_ref, he, Bool.false_eq_true, if_false, heapAlloc,
          hcopy, hid]
        exact heapGet_append_lt h _ a ha
      · simp only [serialize_product_ref, he, Bool.false_eq_true, if_false, heapAlloc,
          hcopy, hid]
        rw [serialize_some_no_id _ hne2 hid]

/-- Witness for C9 at a one-object heap holding `sampleDoc`. -/
theorem serialize_product_no_mutation_witness :
    heapGet (serialize_product_ref [sampleDoc] 0).1 0 = heapGet [sampleDoc] 0 ∧
    heapGet (serialize_product_ref [sampleDoc] 0).1 (serialize_product_ref [sampleDoc] 0).2 =
      serialize_product (some (heapGet [sampleDoc] 0)) :=
  serialize_product_no_mutation [sampleDoc] 0 (by decide)

theorem hexDigitVal_hexDigitChar : ∀ n, n < 16 → hexDigitVal (hexDigitChar n) = n := by decide

theorem isHexDigit_hexDigitChar : ∀ n, n < 16 → isHexDigit (hexDigitChar n) = true := by decide

theorem toHexDigits_length (k v : Nat) : (toHexDigits k v).length = k := by
  induction k generalizing v with
  | zero => rfl
  | succ k ih => simp [toHexDigits, ih]

theorem toHexDigits_all_hex (k v : Nat) : (toHexDigits k v).all isHexDigit = true := by
  induction k generalizing v with
  | zero => rfl
  | succ k ih =>
    simp [toHexDigits, ih, isHexDigit_hexDigitChar (v % 16) (Nat.mod_lt v (by norm_num))]

theorem foldl_hex (k : Nat) : ∀ v a, v < 16 ^ k →
    List.foldl (fun a c => 16 * a + hexDigitVal c) a (toHexDigits k v) = 16 ^ k * a + v := by
  induction k with
  | zero =>
    intro v a hv
    have hv0 : v = 0 := Nat.lt_one_iff.mp (by simpa using hv)
    subst hv0
    simp [toHexDigits]
  | succ k ih =>
    intro v a hv
    have h1 : v / 16 < 16 ^ k := by
      rw [Nat.div_lt_iff_lt_mul (by norm_num)]
      calc v < 16 ^ (k + 1) := hv
        _ = 16 ^ k * 16 := by rw [pow_succ]
    simp only [toHexDigits, List.foldl_append, List.foldl_cons, List.foldl_nil]
    rw [ih (v / 16) a h1, hexDigitVal_hexDigitChar (v % 16) (Nat.mod_lt v (by norm_num))]
    rw [pow_succ]
    ring_nf
    omega

theorem parseObjectId_oidString (n : Nat) (hn : n < 16 ^ 24) :
    parseObjectId (oidString n) = some n := by
  unfold parseObjectId oidString
  have hlen : (toHexDigits 24 n).length = 24 := toHexDigits_length 24 n
  have hhex : (toHexDigits 24 n).all isHexDigit = true := toHexDigits_all_hex 24 n
  rw [if_pos ⟨hlen, hhex⟩]
  have : parseHexDigits (toHexDigits 24 n) = n := by
    unfold parseHexDigits
    rw [foldl_hex 24 n 0 hn]
    simp
  rw [this]

theorem matchesFilter_single (k : String) (v : Value) (d : Dict) :
    matchesFilter [(k, v)] d = decide (dictGet d k = some v) := by
  simp [matchesFilter]

/-- C4: `get_product` validates the identifier string before touching
storage - a malformed string yields a 400 no matter what the store holds;
a well-formed identifier with no matching document yields a 404, distinct
from the 400; and on success exactly one serialized product is returned. -/
theorem get_product_spec (s : Store) (pid : String) :
    (parseObjectId pid = none → get_product (some s) pid = Except.error 400) ∧
    (∀ oid, parseObjectId pid = some oid →
      find_one s.product [("_id", Value.oid oid)] = none →
      get_product (some s) pid = Except.error 404) ∧
    (∀ oid doc, parseObjectId pid = some oid →
      find_one s.product [("_id", Value.oid oid)] = some doc → doc ≠ [] →
      get_product (some s) pid = Except.ok (serialize_product (some doc))) := by
  refine ⟨?_, ?_, ?_⟩
  · intro h
    simp [get_product, h]
  · intro oid h1 h2
    simp [get_product, h1, h2, optFalsy]
  · intro oid doc h1 h2 h3
    simp [get_product, h1, h2, optFalsy, h3]

/-- Witness for C4: a malformed id, a well-formed absent id, and a
well-formed present id against the one-document store `sampleStore`. -/
theorem get_product_spec_witness :
    get_product (some sampleStore) "not-an-id" = Except.error 400 ∧
    get_product (some sampleStore) (oidString 5) = Except.error 404 ∧
    get_product (some sampleStore) (oidString 7) =
      Except.ok (serialize_product (some sampleDoc)) :=
  ⟨(get_product_spec sampleStore "not-an-id").1 (by decide),
   (get_product_spec sampleStore (oidString 5)).2.1 5 (by decide) (by decide),
   (get_product_spec sampleStore (oidString 7)).2.2 7 sampleDoc (by decide) (by decide)
     (by decide)⟩

/-- C5: every data-touching operation checks the storage-unavailable state
first and fails with a 500 without attempting any storage operation when
the handle is unavailable. -/
theorem unavailable_fail_fast (cat : Option String) (lim : Nat) (pid : String) (p : Dict) :
    list_products none cat lim = Except.error 500 ∧
    get_product none pid = Except.error 500 ∧
    create_product none p = Except.error 500 ∧
    seed_products none = Except.error 500 :=
  ⟨rfl, rfl, rfl, rfl⟩

/-- C8: the diagnostics operation never fails the request itself - it is a
total function into a 200 status report - and a storage fault raised while
listing collection names is downgraded to a descriptive status string, with
the collection list left empty. -/
theorem test_database_spec (nm : Option String) (e : String) (u v : Bool) :
    (test_database (some ⟨nm, Except.error e⟩) u v).database =
      "⚠️  Connected but Error: " ++ e.take 50 ∧
    (test_database (some ⟨nm, Except.error e⟩) u v).collections = [] ∧
    (∀ db u2 v2, (test_database db u2 v2).backend = "✅ Running") := by
  refine ⟨rfl, rfl, ?_⟩
  intro db u2 v2
  cases db with
  | none => rfl
  | some d =>
    cases d with
    | mk nm2 lc => cases lc <;> rfl

theorem matches_list_filter_in_stock (cat : Option String) (d : Dict)
    (h : matchesFilter (list_filter cat) d = true) :
    dictGet d "in_stock" = some (Value.bool true) := by
  cases cat with
  | none =>
    rw [list_filter, matchesFilter_single] at h
    exact of_decide_eq_true h
  | some c =>
    by_cases hc : c = ""
    · rw [list_filter, if_pos hc, matchesFilter_single] at h
      exact of_decide_eq_true h
    · rw [list_filter, if_neg hc] at h
      have : dictSet [("in_stock", Value.bool true)] "category" (Value.str c) =
          [("in_stock", Value.bool true), ("category", Value.str c)] := by
        simp [dictSet]
      rw [this] at h
      simp only [matchesFilter, List.all_cons, List.all_nil, Bool.and_true,
        Bool.and_eq_true, decide_eq_true_eq] at h
      exact h.1

theorem matches_list_filter_category (c : String) (d : Dict) (hc : c ≠ "")
    (h : matchesFilter (list_filter (some c)) d = true) :
    dictGet d "category" = some (Value.str c) := by
  rw [list_filter, if_neg hc] at h
  have : dictSet [("in_stock", Value.bool true)] "category" (Value.str c) =
      [("in_stock", Value.bool true), ("category", Value.str c)] := by
    simp [dictSet]
  rw [this] at h
  simp only [matchesFilter, List.all_cons, List.all_nil, Bool.and_true,
    Bool.and_eq_true, decide_eq_true_eq] at h
  exact h.2

/-- C3, amended: every returned item is in stock; when a NON-EMPTY category
is supplied every returned item's category equals it exactly (the code
treats a supplied empty-string category like an absent one, see the
counterexample); the result is capped at the client-supplied limit, whose
declared default is 24 and which has no enforced upper bound (for every
limit there is a store filling it exactly); and the operation never errors
on an available store - in particular, when nothing matches it answers the
empty sequence. -/
theorem list_products_spec (s : Store) (cat : Option String) (lim : Nat) (r : List Dict)
    (d : Dict) (hr : list_products (some s) cat lim = Except.ok r) (hd : d ∈ r) :
    dictGet d "in_stock" = some (Value.bool true) ∧
    (∀ c, cat = some c → c ≠ "" → dictGet d "category" = some (Value.str c)) ∧
    r.length ≤ lim ∧
    list_products_default_limit = 24 ∧
    (∀ m, ∃ s2 r2, list_products (some s2) none m = Except.ok r2 ∧ r2.length = m) ∧
    (∀ s3 c3 l3, ∃ r3, list_products (some s3) c3 l3 = Except.ok r3) ∧
    (∀ s4 c4 l4, (∀ e, e ∈ s4.product → dictGet e "in_stock" ≠ some (Value.bool true)) →
      list_products (some s4) c4 l4 = Except.ok []) := by
  have hrr : r = (get_documents s.product (list_filter cat) lim).map
      (fun d => serialize_product (some d)) := by
    simpa [list_products] using hr.symm
  subst hrr
  obtain ⟨d0, hmem, rfl⟩ := List.mem_map.mp hd
  have hmem2 : d0 ∈ (s.product.filter (matchesFilter (list_filter cat))) :=
    List.mem_of_mem_take hmem
  have hmatch : matchesFilter (list_filter cat) d0 = true := (List.mem_filter.mp hmem2).2
  refine ⟨?_, ?_, ?_, rfl, ?_, ?_, ?_⟩
  · rw [serialize_get_other d0 "in_stock" (by decide) (by decide)]
    exact matches_list_filter_in_stock cat d0 hmatch
  · intro c hc hcne
    subst hc
    rw [serialize_get_other d0 "category" (by decide) (by decide)]
    exact matches_list_filter_category c d0 hcne hmatch
  · rw [List.length_map]
    exact List.length_take_le lim _
  · intro m
    refine ⟨⟨List.replicate m cexDoc, 0⟩, _, rfl, ?_⟩
    have hfil : List.filter (matchesFilter (list_filter none)) (List.replicate m cexDoc) =
        List.replicate m cexDoc := by
      rw [List.filter_eq_self]
      intro a ha
      rw [List.eq_of_mem_replicate ha]
      decide
    simp [get_documents, hfil, List.take_replicate]
  · intro s3 c3 l3
    exact ⟨_, rfl⟩
  · intro s4 c4 l4 hno
    have hfil : List.filter (matchesFilter (list_filter c4)) s4.product = [] := by
      rw [List.filter_eq_nil_iff]
      intro e he
      cases hm : matchesFilter (list_filter c4) e with
      | false => simp
      | true => exact absurd (matches_list_filter_in_stock c4 e hm) (hno e he)
    simp [list_products, get_documents, hfil]

/-- Witness for C3 (amended) at the one-document store `sampleStore` with
the supplied category "Home" and the default limit. -/
theorem list_products_spec_witness :
    dictGet sampleDocSerialized "in_stock" = some (Value.bool true) ∧
    dictGet sampleDocSerialized "category" = some (Value.str "Home") :=
  ⟨(list_products_spec sampleStore (some "Home") 24 [sampleDocSerialized]
      sampleDocSerialized rfl (by decide)).1,
   (list_products_spec sampleStore (some "Home") 24 [sampleDocSerialized]
      sampleDocSerialized rfl (by decide)).2.1 "Home" rfl (by decide)⟩

/-- Counterexample to C3 as stated: with a supplied (empty-string) category,
`?category=`, Python `if category:` is false, so the category filter is not
applied - the store whose only in-stock document has category "Home"
returns that document even though its category does not equal the supplied
category "". -/
theorem list_products_category_cex :
    list_products (some cexStore) (some "") 24 = Except.ok [cexDoc] ∧
    dictGet cexDoc "category" = some (Value.str "Home") ∧
    Value.str "Home" ≠ Value.str "" :=
  ⟨rfl, by decide, by decide⟩

theorem find_one_append_fresh (l : List Dict) (nd : Dict) (filt : Dict)
    (hno : ∀ d ∈ l, matchesFilter filt d = false) (hm : matchesFilter filt nd = true) :
    find_one (l ++ [nd]) filt = some nd := by
  unfold find_one
  rw [List.find?_append]
  have h1 : l.find? (matchesFilter filt) = none :=
    List.find?_eq_none.mpr (fun x hx => by simp [hno x hx])
  rw [h1]
  simp [List.find?, hm]

/-- C7: Create inserts the payload and re-reads the inserted document by
its newly assigned identifier, so the response is exactly the serialization
of what was persisted; consequently Get on the returned id yields the same
payload, whose fields equal the submitted payload modulo the added "id"
field.  The freshness hypothesis is the spec's uniqueness of storage-
assigned identifiers; the bound keeps the identifier inside the 24-hex-digit
rendering range. -/
theorem create_product_spec (s : Store) (p : Dict)
    (hfresh : ∀ d ∈ s.product, dictGet d "_id" ≠ some (Value.oid s.nextId))
    (hbound : s.nextId < 16 ^ 24) :
    create_product (some s) p =
      Except.ok (serialize_product (some (dictSet p "_id" (Value.oid s.nextId))),
        ⟨s.product ++ [dictSet p "_id" (Value.oid s.nextId)], s.nextId + 1⟩) ∧
    get_product (some ⟨s.product ++ [dictSet p "_id" (Value.oid s.nextId)], s.nextId + 1⟩)
        (oidString s.nextId) =
      Except.ok (serialize_product (some (dictSet p "_id" (Value.oid s.nextId)))) ∧
    (∀ k, k ≠ "_id" → k ≠ "id" →
      dictGet (serialize_product (some (dictSet p "_id" (Value.oid s.nextId)))) k =
        dictGet p k) ∧
    dictGet (serialize_product (some (dictSet p "_id" (Value.oid s.nextId)))) "id" =
      some (Value.str (oidString s.nextId)) := by
  have hndid : dictGet (dictSet p "_id" (Value.oid s.nextId)) "_id" =
      some (Value.oid s.nextId) := dictGet_dictSet_self p "_id" (Value.oid s.nextId)
  have hmatch : matchesFilter [("_id", Value.oid s.nextId)]
      (dictSet p "_id" (Value.oid s.nextId)) = true := by
    rw [matchesFilter_single]
    exact decide_eq_true hndid
  have hnomatch : ∀ d ∈ s.product,
      matchesFilter [("_id", Value.oid s.nextId)] d = false := by
    intro d hd
    rw [matchesFilter_single]
    exact decide_eq_false (hfresh d hd)
  have hfind : find_one (s.product ++ [dictSet p "_id" (Value.oid s.nextId)])
      [("_id", Value.oid s.nextId)] = some (dictSet p "_id" (Value.oid s.nextId)) :=
    find_one_append_fresh s.product _ _ hnomatch hmatch
  have hne : dictSet p "_id" (Value.oid s.nextId) ≠ [] := dictSet_ne_nil p _ _
  refine ⟨?_, ?_, ?_, ?_⟩
  · simp [create_product, create_document, hfind]
  · have hparse : parseObjectId (oidString s.nextId) = some s.nextId :=
      parseObjectId_oidString s.nextId hbound
    simp [get_product, hparse, hfind, optFalsy, hne]
  · intro k h1 h2
    rw [serialize_get_other _ k h1 h2, dictGet_dictSet_ne p _ k _ h1]
  · rw [serialize_some_of_id _ _ hndid, dictGet_dictSet_self]
    rfl

/-- Witness for C7: create the spec's section-8 scenario payload on the
empty store, then read it back through `get_product`. -/
theorem create_product_spec_witness :
    create_product (some ⟨[], 0⟩) samplePayload =
      Except.ok (serialize_product (some (dictSet samplePayload "_id" (Value.oid 0))),
        ⟨[dictSet samplePayload "_id" (Value.oid 0)], 1⟩) ∧
    get_product (some ⟨[dictSet samplePayload "_id" (Value.oid 0)], 1⟩) (oidString 0) =
      Except.ok (serialize_product (some (dictSet samplePayload "_id" (Value.oid 0)))) ∧
    dictGet (serialize_product (some (dictSet samplePayload "_id" (Value.oid 0)))) "title" =
      dictGet samplePayload "title" :=
  ⟨(create_product_spec ⟨[], 0⟩ samplePayload (by simp) (pow_pos (by norm_num) 24)).1,
   (create_product_spec ⟨[], 0⟩ samplePayload (by simp) (pow_pos (by norm_num) 24)).2.1,
   (create_product_spec ⟨[], 0⟩ samplePayload (by simp) (pow_pos (by norm_num) 24)).2.2.1
     "title" (by decide) (by decide)⟩

theorem attachIds_length (ps : List Dict) (n : Nat) : (attachIds ps n).length = ps.length := by
  induction ps generalizing n with
  | nil => rfl
  | cons p rest ih => simp [attachIds, ih]

theorem insertAll_eq (ps : List Dict) (s : Store) :
    insertAll ps s = (List.range' s.nextId ps.length,
      ⟨s.product ++ attachIds ps s.nextId, s.nextId + ps.length⟩) := by
  induction ps generalizing s with
  | nil => simp [insertAll, attachIds, List.range']
  | cons p rest ih =>
    simp only [insertAll, create_document, ih, List.length_cons]
    refine Prod.ext ?_ ?_
    · show s.nextId :: List.range' (s.nextId + 1) rest.length =
        List.range' s.nextId (rest.length + 1)
      rw [List.range'_succ]
    · show (⟨(s.product ++ [dictSet p "_id" (Value.oid s.nextId)]) ++
          attachIds rest (s.nextId + 1), s.nextId + 1 + rest.length⟩ : Store) =
        ⟨s.product ++ attachIds (p :: rest) s.nextId, s.nextId + (rest.length + 1)⟩
      rw [List.append_assoc]
      have h2 : s.nextId + 1 + rest.length = s.nextId + (rest.length + 1) := by omega
      rw [h2]
      rfl

theorem products_map_eq (ps : List Dict) (n : Nat)
    (hnoid : ∀ p ∈ ps, dictGet p "_id" = none) :
    (List.range' n ps.length).map
      (fun i => serialize_product (find_one (attachIds ps n) [("_id", Value.oid i)])) =
    (attachIds ps n).map (fun d => serialize_product (some d)) := by
  induction ps generalizing n with
  | nil => simp [attachIds]
  | cons p rest ih =>
    have hid : dictGet (dictSet p "_id" (Value.oid n)) "_id" = some (Value.oid n) :=
      dictGet_dictSet_self p "_id" (Value.oid n)
    have hm : matchesFilter [("_id", Value.oid n)] (dictSet p "_id" (Value.oid n)) = true := by
      rw [matchesFilter_single]
      exact decide_eq_true hid
    have hhead : find_one (attachIds (p :: rest) n) [("_id", Value.oid n)] =
        some (dictSet p "_id" (Value.oid n)) := by
      show List.find? _ (dictSet p "_id" (Value.oid n) :: attachIds rest (n + 1)) = _
      exact List.find?_cons_of_pos _ hm
    have htail : ∀ i ∈ List.range' (n + 1) rest.length,
        serialize_product (find_one (attachIds (p :: rest) n) [("_id", Value.oid i)]) =
        serialize_product (find_one (attachIds rest (n + 1)) [("_id", Value.oid i)]) := by
      intro i hi
      have hge : n + 1 ≤ i := (List.mem_range'_1.mp hi).1
      have hmf : matchesFilter [("_id", Value.oid i)] (dictSet p "_id" (Value.oid n)) =
          false := by
        rw [matchesFilter_single]
        apply decide_eq_false
        rw [hid]
        intro he
        simp only [Option.some.injEq, Value.oid.injEq] at he
        omega
      have : find_one (attachIds (p :: rest) n) [("_id", Value.oid i)] =
          find_one (attachIds rest (n + 1)) [("_id", Value.oid i)] := by
        show List.find? _ (dictSet p "_id" (Value.oid n) :: attachIds rest (n + 1)) = _
        exact List.find?_cons_of_neg _ (by simp [hmf])
      rw [this]
    show (List.range' n (rest.length + 1)).map _ = _
    rw [List.range'_succ, List.map_cons, List.map_congr_left htail, hhead,
      ih (n + 1) (fun q hq => hnoid q (List.mem_cons_of_mem p hq))]
    rfl

/-- C6: when the collection already holds at least one document, Seed
performs no inserts (the store is returned unchanged) and reports
seeded: false; on an empty collection it inserts exactly the fixed 12-item
sample catalog (each item with its newly assigned identifier attached) and
returns seeded: true with count 12 and the inserted, serialized products. -/
theorem seed_products_spec (s : Store) :
    (0 < s.product.length →
      seed_products (some s) = Except.ok (SeedResponse.already "Products already exist", s)) ∧
    (s.product = [] →
      seed_products (some s) =
        Except.ok (SeedResponse.seeded 12
          ((attachIds MOCK_PRODUCTS s.nextId).map (fun d => serialize_product (some d))),
          ⟨attachIds MOCK_PRODUCTS s.nextId, s.nextId + 12⟩)) := by
  obtain ⟨prod, nid⟩ := s
  constructor
  · intro h
    simp only [seed_products]
    rw [if_pos h]
  · intro h
    subst h
    have hnoid : ∀ p ∈ MOCK_PRODUCTS, dictGet p "_id" = none := by decide
    simp only [seed_products, insertAll_eq, List.nil_append]
    rw [if_neg (by simp)]
    rw [products_map_eq MOCK_PRODUCTS nid hnoid]
    rw [List.length_map, attachIds_length]
    rfl

/-- Witness for C6: seeding the non-empty store `sampleStore` is a no-op;
seeding an empty store inserts the 12-item catalog. -/
theorem seed_products_spec_witness :
    seed_products (some sampleStore) =
      Except.ok (SeedResponse.already "Products already exist", sampleStore) ∧
    seed_products (some ⟨[], 0⟩) =
      Except.ok (SeedResponse.seeded 12
        ((attachIds MOCK_PRODUCTS 0).map (fun d => serialize_product (some d))),
        ⟨attachIds MOCK_PRODUCTS 0, 12⟩) :=
  ⟨(seed_products_spec sampleStore).1 (by decide),
   (seed_products_spec ⟨[], 0⟩).2 rfl⟩
